import Mathlib

/-!
Verification of the Torgovo trading platform core against its specification.

The definitions below are shallow embeddings of the Python source:
* `subscriptions/utils.py` — `calculate_managed_bot_performance`,
  `calculate_profit_share`, `validate_webhook_request`;
* `subscriptions/models.py` — `CustomBotWebhook.check_rate_limit`,
  `CustomBotWebhook.record_trigger`, `ManagedBotPerformance.record_trade`;
* `subscriptions/middleware.py` — `WebhookRateLimitMiddleware._check_rate_limit`
  and `__call__`;
* `subscriptions/api/views.py` — `TradingViewWebhookView.post`;
* `subscriptions/api/serializers.py` — `WebhookPayloadSerializer`;
* `trading/bot_manager.py` — `TradingManager.create_bot`, `start_bot`,
  `execute_webhook_order`;
* `trading/bots/BaseBot.py` — `validate_order_params`.

Decimal quantities and prices are modelled as rationals (`ℚ`); database
rows are explicit structures, and methods that save a row return the
updated row.
-/

namespace Torgovo

/-! ## Performance ledger (`calculate_managed_bot_performance`) -/

/-- Order action as used by the FIFO ledger. -/
inductive Action
  | buy
  | sell
deriving DecidableEq, Repr

/-- An executed order as the ledger reads it: `executed_price or price` and
`executed_quantity or quantity` already resolved. -/
structure ExecOrder where
  action : Action
  price : ℚ
  quantity : ℚ
deriving DecidableEq, Repr

/-- An open buy lot in the FIFO queue (`buy_queue` entries; the timestamp
field is never read by the algorithm and is omitted). -/
structure Lot where
  price : ℚ
  quantity : ℚ
deriving DecidableEq, Repr

/-- The inner `while buy_queue and sell_quantity > 0` loop of
`calculate_managed_bot_performance`: match a sell of `sellQty` at
`sellPrice` against the front of the buy queue, accumulating
`(total_profit, total_loss)`.  Returns the new totals and the remaining
queue.  Each iteration either pops the front lot or zeroes the remaining
sell quantity, so the recursion is structural on the queue. -/
def matchSell (sellPrice : ℚ) : List Lot → ℚ → ℚ × ℚ → ℚ × ℚ × List Lot
  | [], _, pl => (pl.1, pl.2, [])
  | lot :: rest, sellQty, pl =>
    if sellQty ≤ 0 then (pl.1, pl.2, lot :: rest)
    else
      let m := min lot.quantity sellQty
      let profit_loss := (sellPrice - lot.price) * m
      let p := if profit_loss > 0 then pl.1 + profit_loss else pl.1
      let l := if profit_loss > 0 then pl.2 else pl.2 + |profit_loss|
      let lotQty := lot.quantity - m
      let sellQty := sellQty - m
      if lotQty ≤ 0 then matchSell sellPrice rest sellQty (p, l)
      else (p, l, { lot with quantity := lotQty } :: rest)
termination_by structural queue => queue

/-- Running state of the `for order in orders` scan. -/
structure FifoState where
  total_profit : ℚ
  total_loss : ℚ
  buy_queue : List Lot
deriving DecidableEq, Repr

/-- One iteration of the `for order in orders` loop: a buy appends a lot;
a sell is matched FIFO only when the buy queue is non-empty
(`elif order.action == 'sell' and buy_queue`). -/
def processOrder (s : FifoState) (o : ExecOrder) : FifoState :=
  match o.action with
  | .buy => { s with buy_queue := s.buy_queue ++ [⟨o.price, o.quantity⟩] }
  | .sell =>
    if s.buy_queue.isEmpty then s
    else
      let r := matchSell o.price s.buy_queue o.quantity (s.total_profit, s.total_loss)
      ⟨r.1, r.2.1, r.2.2⟩

/-- The dictionary returned by `calculate_managed_bot_performance`. -/
structure PerfResult where
  total_profit : ℚ
  total_loss : ℚ
  net_profit : ℚ
  profit_percentage : ℚ
  current_balance : ℚ
  total_orders : ℕ
deriving DecidableEq, Repr

/-- `calculate_managed_bot_performance` (subscriptions/utils.py): scan the
chronological executed-order history with FIFO matching, then derive the
net metrics.  `initial_investment` is the value read from the
`ManagedBotPerformance` record (`0` when the record does not exist).
When the history is empty the function returns the all-zero dictionary
before the record is even consulted. -/
def calculate_managed_bot_performance (initial_investment : ℚ)
    (orders : List ExecOrder) : PerfResult :=
  if orders.isEmpty then ⟨0, 0, 0, 0, 0, 0⟩
  else
    let s := orders.foldl processOrder ⟨0, 0, []⟩
    let net_profit := s.total_profit - s.total_loss
    let current_balance := initial_investment + net_profit
    let profit_percentage :=
      if initial_investment > 0 then net_profit / initial_investment * 100 else 0
    ⟨s.total_profit, s.total_loss, net_profit, profit_percentage,
      current_balance, orders.length⟩

/-- The spec's worked FIFO example history:
buy 1.0@100, buy 1.0@110, sell 1.5@120. -/
def fifoExampleOrders : List ExecOrder :=
  [⟨.buy, 100, 1⟩, ⟨.buy, 110, 1⟩, ⟨.sell, 120, 3/2⟩]

/-! ## Performance record (`ManagedBotPerformance`) -/

/-- The `ManagedBotPerformance` row, restricted to the fields read or
written by `record_trade` and `calculate_profit_share`. -/
structure PerfRecord where
  initial_investment : ℚ
  current_balance : ℚ
  total_profit : ℚ
  total_loss : ℚ
  net_profit : ℚ
  profit_percentage : ℚ
  profit_share_owed : ℚ
  profit_share_paid : ℚ
  total_trades : ℕ
  winning_trades : ℕ
  losing_trades : ℕ
  win_rate : ℚ
deriving DecidableEq, Repr

/-- Python's `round` to an integer: round half to even (banker's
rounding, used by `round()` on `Decimal` and `float`). -/
def roundHalfEven (x : ℚ) : ℤ :=
  let f := ⌊x⌋
  let r := x - f
  if r < 1/2 then f
  else if 1/2 < r then f + 1
  else if f % 2 = 0 then f else f + 1

/-- Python's `round(x, dp)` to `dp` decimal places. -/
def roundDp (x : ℚ) (dp : ℕ) : ℚ :=
  (roundHalfEven (x * 10 ^ dp) : ℚ) / 10 ^ dp

/-- `ManagedBotPerformance.record_trade` (subscriptions/models.py):
count the trade, add the amount to gross profit or gross loss, then
recompute `net_profit`, `current_balance`, `profit_percentage` and
`win_rate`, and save. -/
def record_trade (p : PerfRecord) (profit_loss_amount : ℚ) : PerfRecord :=
  let total_trades := p.total_trades + 1
  let total_profit :=
    if profit_loss_amount > 0 then p.total_profit + profit_loss_amount
    else p.total_profit
  let total_loss :=
    if profit_loss_amount > 0 then p.total_loss
    else p.total_loss + |profit_loss_amount|
  let winning_trades :=
    if profit_loss_amount > 0 then p.winning_trades + 1 else p.winning_trades
  let losing_trades :=
    if profit_loss_amount > 0 then p.losing_trades else p.losing_trades + 1
  let net_profit := total_profit - total_loss
  let current_balance := p.initial_investment + net_profit
  let profit_percentage :=
    if p.initial_investment > 0 then
      roundDp (net_profit / p.initial_investment * 100) 4
    else p.profit_percentage
  let win_rate :=
    if total_trades > 0 then
      roundDp ((winning_trades : ℚ) / (total_trades : ℚ) * 100) 2
    else p.win_rate
  { p with
      total_trades := total_trades
      total_profit := total_profit
      total_loss := total_loss
      winning_trades := winning_trades
      losing_trades := losing_trades
      net_profit := net_profit
      current_balance := current_balance
      profit_percentage := profit_percentage
      win_rate := win_rate }

/-! ## Webhook registration (`CustomBotWebhook`) -/

/-- The `CustomBotWebhook` row, restricted to the fields read or written
by `check_rate_limit`, `record_trigger` and `validate_webhook_request`. -/
structure Webhook where
  is_active : Bool
  allow_ip_whitelist : Bool
  allowed_ips : List String
  rate_limit_count : ℕ
  rate_limit_reset : Option ℚ
  total_triggers : ℕ
  successful_triggers : ℕ
  last_triggered : Option ℚ
  last_ip_address : Option String
deriving DecidableEq, Repr

/-- `CustomBotWebhook.check_rate_limit` (subscriptions/models.py): reset
the hourly counter when the reset time has passed (saving the row), then
compare the counter against the plan's `webhook_requests_per_hour`.
Returns `(can_use, message)` together with the persisted row state. -/
def check_rate_limit (w : Webhook) (now : ℚ) (max_requests : ℕ) :
    Bool × String × Webhook :=
  let w :=
    match w.rate_limit_reset with
    | some r =>
      if now > r then
        { w with rate_limit_count := 0, rate_limit_reset := some (now + 3600) }
      else w
    | none => w
  if w.rate_limit_count ≥ max_requests then (false, "Rate limit exceeded", w)
  else (true, "Within rate limit", w)

/-- `CustomBotWebhook.record_trigger` (subscriptions/models.py): stamp
the trigger time, bump the trigger counters (success counter only on
success), remember the caller IP, and bump the hourly rate counter. -/
def record_trigger (w : Webhook) (now : ℚ) (success : Bool)
    (ip_address : Option String) : Webhook :=
  { w with
      last_triggered := some now
      total_triggers := w.total_triggers + 1
      successful_triggers := w.successful_triggers + (if success then 1 else 0)
      last_ip_address :=
        match ip_address with
        | some ip => some ip
        | none => w.last_ip_address
      rate_limit_count := w.rate_limit_count + 1
      rate_limit_reset :=
        match w.rate_limit_reset with
        | none => some (now + 3600)
        | some r => some r }

/-- `validate_webhook_request` (subscriptions/utils.py): look up the
registration by secret, then check, in order: active flag, model-level
rate limit, IP allow-list, subscription status.  `w?` is the result of
the secret lookup.  Returns `(is_valid, error_message)` together with the
persisted registration row after the call (`none` when the secret was
unknown). -/
def validate_webhook_request (w? : Option Webhook) (client_ip : String)
    (subscription_active : Bool) (max_requests : ℕ) (now : ℚ) :
    Bool × Option String × Option Webhook :=
  match w? with
  | none => (false, some "Invalid webhook secret", none)
  | some w =>
    if w.is_active = false then (false, some "Webhook is inactive", some w)
    else
      let rl := check_rate_limit w now max_requests
      if rl.1 = false then (false, some rl.2.1, some rl.2.2)
      else
        let w := rl.2.2
        if w.allow_ip_whitelist ∧ client_ip ∉ w.allowed_ips then
          (false, some ("IP address " ++ client_ip ++ " not allowed"), some w)
        else if subscription_active = false then
          (false, some "Subscription not active", some w)
        else (true, none, some w)

/-! ## Middleware sliding-window rate limiter
(`WebhookRateLimitMiddleware._check_rate_limit`) -/

/-- `WebhookRateLimitMiddleware._check_rate_limit`
(subscriptions/middleware.py): read the timestamp list stored for the
key, drop entries outside the trailing window, reject when the remaining
count reaches the limit (without writing the cache), otherwise append
`now` and store the result.  Returns the decision together with the
cache contents after the call. -/
def middleware_check_rate_limit (stored : List ℚ) (now : ℚ)
    (rate_limit : ℕ) (window_seconds : ℚ) : Bool × List ℚ :=
  let requests := stored.filter (fun t => now - t < window_seconds)
  if rate_limit ≤ requests.length then (false, stored)
  else (true, requests ++ [now])

/-! ## Profit share (`calculate_profit_share`) -/

/-- The dictionary returned by `calculate_profit_share`. -/
structure ProfitShareResult where
  profit_share_percentage : ℚ
  total_profit : ℚ
  profit_share_owed : ℚ
  profit_share_paid : ℚ
  profit_share_remaining : ℚ
deriving DecidableEq, Repr

/-- `calculate_profit_share` (subscriptions/utils.py): look up the
performance record (`none` models `DoesNotExist`, returning all zeros),
read the plan's `profit_share_percentage` (`none`, i.e. null, falls back
to 0), and compute the share owed on gross `total_profit` only. -/
def calculate_profit_share (perf? : Option PerfRecord)
    (plan_pct? : Option ℚ) : ProfitShareResult :=
  match perf? with
  | none => ⟨0, 0, 0, 0, 0⟩
  | some perf =>
    let profit_share_percentage := plan_pct?.getD 0
    let profit_share_owed :=
      perf.total_profit * (profit_share_percentage / 100)
    ⟨profit_share_percentage, perf.total_profit, profit_share_owed,
      perf.profit_share_paid, profit_share_owed - perf.profit_share_paid⟩

/-- The `ManagedBotPerformance` row whose gross profit field holds the
FIFO example's computed `total_profit` (spec's profit-share example). -/
def fifoExamplePerf : PerfRecord where
  initial_investment := 1000
  current_balance := 1025
  total_profit := (calculate_managed_bot_performance 1000 fifoExampleOrders).total_profit
  total_loss := 0
  net_profit := 25
  profit_percentage := 5/2
  profit_share_owed := 0
  profit_share_paid := 0
  total_trades := 3
  winning_trades := 1
  losing_trades := 0
  win_rate := 100

/-! ## Bot registry (`TradingManager`, trading/bot_manager.py) -/

/-- An in-memory bot instance.  `ctor_id` records which adapter-constructor
invocation produced it (the model's way of counting constructions). -/
structure BotInstance where
  ctor_id : ℕ
  user_id : ℕ
  pair_symbol : String
  exchange : String
deriving DecidableEq, Repr

/-- `TradingManager._get_bot_key`. -/
def get_bot_key (user_id : ℕ) (pair_symbol exchange : String) : String :=
  toString user_id ++ "_" ++ pair_symbol ++ "_" ++ exchange

/-- `BotSession.status` values (trading/models.py). -/
inductive SessionStatus
  | starting
  | running
  | paused
  | stopped
  | error
deriving DecidableEq, Repr

/-- A `BotSession` row, restricted to the fields `start_bot` writes. -/
structure BotSession where
  session_id : ℕ
  user_id : ℕ
  pair_symbol : String
  exchange : String
  status : SessionStatus
deriving DecidableEq, Repr

/-- The `TradingManager` state: the `_bots` map (an association list keyed
by bot key), the number of adapter-constructor invocations so far, the
persisted `BotSession` rows, and a fresh supply for session identifiers
(modelling `uuid.uuid4()`). -/
structure TradingManagerState where
  bots : List (String × BotInstance)
  constructions : ℕ
  sessions : List BotSession
  next_session : ℕ
deriving DecidableEq, Repr

/-- `TradingManager.create_bot`: under the registry lock, return the
existing instance for the bot key if present; otherwise check the user's
credentials for the exchange (`credentials ex = none` models a missing
dict entry or falsy api_key), construct the exchange-specific bot, store
it and return it.  Unknown exchanges raise `Unsupported exchange`. -/
def create_bot (st : TradingManagerState) (user_id : ℕ)
    (pair_symbol exchange : String)
    (credentials : String → Option (String × String)) :
    Except String (BotInstance × TradingManagerState) :=
  let key := get_bot_key user_id pair_symbol exchange
  match st.bots.lookup key with
  | some bot => .ok (bot, st)
  | none =>
    if exchange = "binance" ∨ exchange = "bybit" ∨ exchange = "mexc" ∨
        exchange = "kraken_spot" then
      match credentials exchange with
      | some _ =>
        let bot : BotInstance := ⟨st.constructions, user_id, pair_symbol, exchange⟩
        .ok (bot, { st with bots := (key, bot) :: st.bots,
                            constructions := st.constructions + 1 })
      | none => .error ("API keys not configured for " ++ exchange)
    else .error ("Unsupported exchange: " ++ exchange)

/-- `TradingManager.start_bot`: generate a fresh session id, look up the
bot (creating it when absent; the nested lock acquisition is modelled as
re-entrant), create a `BotSession` in `starting`, launch the run loop and
call `start_session()`, which sets the session to `running`.  The source
performs no check for an existing session for the bot key. -/
def start_bot (st : TradingManagerState) (user_id : ℕ)
    (pair_symbol exchange : String)
    (credentials : String → Option (String × String)) :
    Except String (ℕ × TradingManagerState) :=
  let key := get_bot_key user_id pair_symbol exchange
  let session_id := st.next_session
  match st.bots.lookup key with
  | some _ =>
    let session : BotSession := ⟨session_id, user_id, pair_symbol, exchange, .running⟩
    .ok (session_id,
      { st with sessions := st.sessions ++ [session],
                next_session := st.next_session + 1 })
  | none =>
    match create_bot st user_id pair_symbol exchange credentials with
    | .ok (_, st) =>
      let session : BotSession := ⟨session_id, user_id, pair_symbol, exchange, .running⟩
      .ok (session_id,
        { st with sessions := st.sessions ++ [session],
                  next_session := st.next_session + 1 })
    | .error e => .error e

/-- A credentials map with every exchange configured. -/
def credsAll : String → Option (String × String) := fun _ => some ("key", "secret")

/-- A registry state whose `_bots` map already holds the instance for user
1 on BTCUSDT/binance and whose sessions contain one `running` session for
that same bot key. -/
def runningState : TradingManagerState where
  bots := [("1_BTCUSDT_binance", ⟨0, 1, "BTCUSDT", "binance"⟩)]
  constructions := 1
  sessions := [⟨100, 1, "BTCUSDT", "binance", .running⟩]
  next_session := 101

/-! ## Order execution pipeline
(`execute_webhook_order`, `validate_order_params`, webhook view) -/

/-- `Order.status` values (trading/models.py). -/
inductive OrderStatus
  | pending
  | executed
  | cancelled
  | failed
deriving DecidableEq, Repr

/-- An `Order` row, restricted to the fields `execute_webhook_order`
writes. -/
structure Order where
  action : String
  order_type : String
  quantity : ℚ
  price : ℚ
  status : OrderStatus
  executed_price : Option ℚ
  executed_quantity : Option ℚ
  source : String
deriving DecidableEq, Repr

/-- `WebhookPayloadSerializer` (subscriptions/api/serializers.py): the
payload is admitted iff action is buy or sell, the ticker fits the
20-character field, quantity is positive and the price, when supplied,
is positive. -/
def webhook_payload_valid (action ticker : String) (quantity : ℚ)
    (price : Option ℚ) : Bool :=
  (action == "buy" || action == "sell") &&
  decide (ticker.length ≤ 20) &&
  decide (0 < quantity) &&
  (match price with
   | some p => decide (0 < p)
   | none => true)

/-- `BaseBot.validate_order_params` (trading/bots/BaseBot.py), run by
every bot at the start of `execute_market_order` / `execute_limit_order`:
action, positivity and the pair's `[min_order_size, max_order_size]`
bounds. -/
def validate_order_params (min_order_size max_order_size : ℚ)
    (action : String) (quantity : ℚ) (price : Option ℚ) :
    Except String Unit :=
  if ¬ (action = "buy" ∨ action = "sell") then
    .error "Action must be buy or sell"
  else if quantity ≤ 0 then .error "Quantity must be greater than 0"
  else if (match price with | some p => decide (p ≤ 0) | none => false) then
    .error "Price must be greater than 0"
  else if quantity < min_order_size then .error "Quantity below minimum"
  else if max_order_size < quantity then .error "Quantity above maximum"
  else .ok ()

/-- `TradingManager.execute_webhook_order` (trading/bot_manager.py):
create the `Order` row in `pending` (market when no price was supplied),
dispatch to the bot, whose `execute_*_order` first runs
`validate_order_params`; on success mark the order `executed` with the
fill, on an exception mark it `failed` and re-raise.  Either way the row
remains persisted.  Returns the outcome and the persisted order rows. -/
def execute_webhook_order (persisted : List Order)
    (min_order_size max_order_size : ℚ) (action : String) (quantity : ℚ)
    (price : Option ℚ) (fill_price fill_quantity : ℚ) :
    Except String Order × List Order :=
  let order : Order :=
    ⟨action, if price = none then "market" else "limit", quantity,
      price.getD 0, .pending, none, none, "webhook"⟩
  match validate_order_params min_order_size max_order_size action quantity price with
  | .error e =>
    let failed := { order with status := OrderStatus.failed }
    (.error e, persisted ++ [failed])
  | .ok _ =>
    let executed := { order with
      status := OrderStatus.executed
      executed_price := some fill_price
      executed_quantity := some fill_quantity }
    (.ok executed, persisted ++ [executed])

/-- The admitted-trade path of `TradingViewWebhookView.post`: run the
payload serializer, then `_execute_trade` via `execute_webhook_order`.
Returns whether the trade succeeded together with the persisted order
rows. -/
def process_webhook_trade (persisted : List Order)
    (min_order_size max_order_size : ℚ) (action ticker : String)
    (quantity : ℚ) (price : Option ℚ) (fill_price fill_quantity : ℚ) :
    Bool × List Order :=
  if webhook_payload_valid action ticker quantity price = false then
    (false, persisted)
  else
    let r := execute_webhook_order persisted min_order_size max_order_size
      action quantity price fill_price fill_quantity
    match r.1 with
    | .ok _ => (true, r.2)
    | .error _ => (false, r.2)

/-! ## HTTP pipeline (middleware + webhook view) -/

/-- The observable part of an HTTP response: status code and the
retry-after hint. -/
structure HttpResponse where
  status : ℕ
  retry_after : Option ℕ
deriving DecidableEq, Repr

/-- `TradingViewWebhookView.post`: `validate_webhook_request` failing
yields 401 for every rejection reason; then the payload serializer
(failing yields 400); then the trade is executed and the trigger is
recorded, yielding 200 on success and 400 on failure.  Returns the
response and the persisted registration row. -/
def view_post (w? : Option Webhook) (client_ip : String)
    (subscription_active : Bool) (max_requests : ℕ) (now : ℚ)
    (payload_valid exec_success : Bool) : HttpResponse × Option Webhook :=
  let v := validate_webhook_request w? client_ip subscription_active
    max_requests now
  if v.1 = false then (⟨401, none⟩, v.2.2)
  else
    match v.2.2 with
    | none => (⟨401, none⟩, none)
    | some w =>
      if payload_valid = false then (⟨400, none⟩, some w)
      else
        let w := record_trigger w now exec_success (some client_ip)
        (if exec_success then (⟨200, none⟩ : HttpResponse) else ⟨400, none⟩,
          some w)

/-- `WebhookRateLimitMiddleware.__call__` composed with the webhook view:
the middleware's sliding-window limiter runs first and, when it rejects,
answers 429 with `retry_after = 60` without reaching the view; otherwise
the view handles the request.  Returns the response, the middleware
cache state and the registration row. -/
def webhook_pipeline (stored : List ℚ) (mw_rate_limit : ℕ)
    (w? : Option Webhook) (client_ip : String) (subscription_active : Bool)
    (max_requests : ℕ) (now : ℚ) (payload_valid exec_success : Bool) :
    HttpResponse × List ℚ × Option Webhook :=
  let rl := middleware_check_rate_limit stored now mw_rate_limit 60
  if rl.1 = false then (⟨429, some 60⟩, rl.2, w?)
  else
    let v := view_post w? client_ip subscription_active max_requests now
      payload_valid exec_success
    (v.1, rl.2, v.2)

/-- An active registration whose plan-level hourly counter is exhausted:
`rate_limit_count = 10` against a plan limit of 10, no pending reset. -/
def planLimitedWebhook : Webhook where
  is_active := true
  allow_ip_whitelist := false
  allowed_ips := []
  rate_limit_count := 10
  rate_limit_reset := none
  total_triggers := 0
  successful_triggers := 0
  last_triggered := none
  last_ip_address := none

end Torgovo

namespace Torgovo

/-! ## Helper lemmas shared by several claim theorems -/

/-- Full evaluation of the spec's FIFO example. -/
theorem fifo_example_eval :
    calculate_managed_bot_performance 1000 fifoExampleOrders =
      ⟨25, 0, 25, 5/2, 1025, 3⟩ := by
  norm_num [calculate_managed_bot_performance, fifoExampleOrders, processOrder,
    matchSell, List.foldl]

/-! ## Claim theorems: C1, C2 -/

/-- C1: for the executed history [buy 1.0@100, buy 1.0@110, sell 1.5@120]
with initial_investment = 1000, `calculate_managed_bot_performance`
returns total_profit = 25, total_loss = 0, net_profit = 25 and
current_balance = 1025; and for every fixed ordered history the
computation is deterministic: running it twice gives identical totals. -/
theorem fifo_example_totals_and_determinism :
    (calculate_managed_bot_performance 1000 fifoExampleOrders).total_profit = 25 ∧
    (calculate_managed_bot_performance 1000 fifoExampleOrders).total_loss = 0 ∧
    (calculate_managed_bot_performance 1000 fifoExampleOrders).net_profit = 25 ∧
    (calculate_managed_bot_performance 1000 fifoExampleOrders).current_balance = 1025 ∧
    ∀ (init : ℚ) (orders : List ExecOrder),
      calculate_managed_bot_performance init orders =
        calculate_managed_bot_performance init orders := by
  have h := fifo_example_eval
  exact ⟨by rw [h], by rw [h], by rw [h], by rw [h], fun _ _ => rfl⟩

/-- C2, counterexample: with initial_investment = 1000 and an empty
executed-order history, `calculate_managed_bot_performance` returns
current_balance = 0, so the balance invariant
current_balance = initial_investment + total_profit − total_loss fails. -/
theorem empty_history_balance_invariant_fails :
    ¬ ((calculate_managed_bot_performance 1000 []).current_balance =
        1000 + (calculate_managed_bot_performance 1000 []).total_profit -
          (calculate_managed_bot_performance 1000 []).total_loss) := by
  norm_num [calculate_managed_bot_performance]

/-- C2, amended: the balance invariant
current_balance = initial_investment + total_profit − total_loss holds
after `calculate_managed_bot_performance` on every non-empty executed
history, and after every `record_trade` update; on the empty history the
computation instead returns the all-zero record (current_balance = 0
regardless of the initial investment). -/
theorem balance_invariant_nonempty_and_record_trade :
    (∀ (init : ℚ) (orders : List ExecOrder), orders ≠ [] →
      (calculate_managed_bot_performance init orders).current_balance =
        init + (calculate_managed_bot_performance init orders).total_profit -
          (calculate_managed_bot_performance init orders).total_loss) ∧
    (∀ (p : PerfRecord) (a : ℚ),
      (record_trade p a).current_balance =
        (record_trade p a).initial_investment + (record_trade p a).total_profit -
          (record_trade p a).total_loss) ∧
    (∀ (init : ℚ),
      (calculate_managed_bot_performance init []).current_balance = 0) := by
  refine ⟨fun init orders h => ?_, fun p a => ?_, fun init => ?_⟩
  · have hne : orders.isEmpty = false := by
      cases orders with
      | nil => exact absurd rfl h
      | cons x xs => rfl
    simp only [calculate_managed_bot_performance, hne, Bool.false_eq_true,
      if_false]
    ring
  · simp only [record_trade]
    split <;> ring
  · simp [calculate_managed_bot_performance]

/-- C2, witness for the amended theorem at the FIFO example history, a
concrete performance record and a concrete trade amount. -/
theorem balance_invariant_witness :
    (fifoExampleOrders ≠ [] ∧
      (calculate_managed_bot_performance 1000 fifoExampleOrders).current_balance =
        1000 + (calculate_managed_bot_performance 1000 fifoExampleOrders).total_profit -
          (calculate_managed_bot_performance 1000 fifoExampleOrders).total_loss) ∧
    (record_trade ⟨1000, 1000, 0, 0, 0, 0, 0, 0, 0, 0, 0, 0⟩ 5).current_balance =
      (record_trade ⟨1000, 1000, 0, 0, 0, 0, 0, 0, 0, 0, 0, 0⟩ 5).initial_investment +
        (record_trade ⟨1000, 1000, 0, 0, 0, 0, 0, 0, 0, 0, 0, 0⟩ 5).total_profit -
          (record_trade ⟨1000, 1000, 0, 0, 0, 0, 0, 0, 0, 0, 0, 0⟩ 5).total_loss := by
  refine ⟨⟨by simp [fifoExampleOrders], ?_⟩, ?_⟩
  · exact balance_invariant_nonempty_and_record_trade.1 1000 fifoExampleOrders
      (by simp [fifoExampleOrders])
  · exact balance_invariant_nonempty_and_record_trade.2.1
      ⟨1000, 1000, 0, 0, 0, 0, 0, 0, 0, 0, 0, 0⟩ 5

/-! ## Claim theorems: C3, C4, C5, C10 -/

/-- C3: an inactive webhook registration is rejected by
`validate_webhook_request` before the rate-limit check runs, and the
persisted registration state (rate-limit counters and reset time
included) is returned unchanged on that path. -/
theorem inactive_webhook_rejected_before_rate_limit
    (w : Webhook) (ip : String) (sub : Bool) (max_requests : ℕ) (now : ℚ)
    (h : w.is_active = false) :
    validate_webhook_request (some w) ip sub max_requests now =
      (false, some "Webhook is inactive", some w) := by
  simp [validate_webhook_request, h]

/-- C3, witness: a concrete inactive registration with a non-zero
rate-limit counter is rejected with its state unchanged. -/
theorem inactive_webhook_rejected_witness :
    (⟨false, false, [], 5, none, 7, 6, none, none⟩ : Webhook).is_active = false ∧
    validate_webhook_request
        (some ⟨false, false, [], 5, none, 7, 6, none, none⟩) "1.2.3.4" true 10 0 =
      (false, some "Webhook is inactive",
        some ⟨false, false, [], 5, none, 7, 6, none, none⟩) :=
  ⟨rfl, inactive_webhook_rejected_before_rate_limit
    ⟨false, false, [], 5, none, 7, 6, none, none⟩ "1.2.3.4" true 10 0 rfl⟩

/-- C4: with limit 10 over a 60-second window, the middleware
sliding-window limiter rejects the 11th call arriving within 60 seconds
of the first (leaving the stored list unchanged); it accepts a call once
every stored entry is at least 60 seconds old, storing just the new
timestamp; and any rejected call leaves the stored timestamp list
unmutated. -/
theorem sliding_window_rate_limiter :
    (∀ (stored : List ℚ) (first now : ℚ),
      stored.length = 10 → (∀ t ∈ stored, first ≤ t) → now - first < 60 →
      middleware_check_rate_limit stored now 10 60 = (false, stored)) ∧
    (∀ (stored : List ℚ) (now : ℚ),
      (∀ t ∈ stored, 60 ≤ now - t) →
      middleware_check_rate_limit stored now 10 60 = (true, [now])) ∧
    (∀ (stored : List ℚ) (now window : ℚ) (limit : ℕ),
      (middleware_check_rate_limit stored now limit window).1 = false →
      (middleware_check_rate_limit stored now limit window).2 = stored) := by
  refine ⟨fun stored first now hlen hfirst hnow => ?_,
    fun stored now hold => ?_, fun stored now window limit h => ?_⟩
  · have hf : stored.filter (fun t => now - t < 60) = stored :=
      List.filter_eq_self.mpr fun t ht =>
        decide_eq_true (by have := hfirst t ht; linarith)
    simp [middleware_check_rate_limit, hf, hlen]
  · have hf : stored.filter (fun t => now - t < 60) = [] :=
      List.filter_eq_nil_iff.mpr fun t ht => by
        have := hold t ht
        simp only [decide_eq_true_eq]
        linarith
    simp [middleware_check_rate_limit, hf]
  · by_cases hc : limit ≤ (stored.filter (fun t => now - t < window)).length
    · simp [middleware_check_rate_limit, hc]
    · simp [middleware_check_rate_limit, hc] at h

/-- C4, witness: ten stored timestamps at 0 reject a call at time 30
unchanged; a single stored timestamp at 0 lets a call at time 61
through; and the rejected call's stored list is returned as is. -/
theorem sliding_window_rate_limiter_witness :
    (([0, 0, 0, 0, 0, 0, 0, 0, 0, 0] : List ℚ).length = 10 ∧
      (∀ t ∈ ([0, 0, 0, 0, 0, 0, 0, 0, 0, 0] : List ℚ), (0 : ℚ) ≤ t) ∧
      (30 : ℚ) - 0 < 60 ∧
      middleware_check_rate_limit [0, 0, 0, 0, 0, 0, 0, 0, 0, 0] 30 10 60 =
        (false, [0, 0, 0, 0, 0, 0, 0, 0, 0, 0])) ∧
    ((∀ t ∈ ([0] : List ℚ), (60 : ℚ) ≤ 61 - t) ∧
      middleware_check_rate_limit [0] 61 10 60 = (true, [61])) ∧
    ((middleware_check_rate_limit [0, 0, 0, 0, 0, 0, 0, 0, 0, 0] 30 10 60).1 = false ∧
      (middleware_check_rate_limit [0, 0, 0, 0, 0, 0, 0, 0, 0, 0] 30 10 60).2 =
        [0, 0, 0, 0, 0, 0, 0, 0, 0, 0]) := by
  have h1 : (∀ t ∈ ([0, 0, 0, 0, 0, 0, 0, 0, 0, 0] : List ℚ), (0 : ℚ) ≤ t) := by
    intro t ht
    simp at ht
    simp [ht]
  have h2 : (∀ t ∈ ([0] : List ℚ), (60 : ℚ) ≤ 61 - t) := by
    intro t ht
    simp at ht
    norm_num [ht]
  have hrej := sliding_window_rate_limiter.1 [0, 0, 0, 0, 0, 0, 0, 0, 0, 0] 0 30
    rfl h1 (by norm_num)
  refine ⟨⟨rfl, h1, by norm_num, hrej⟩,
    ⟨h2, sliding_window_rate_limiter.2.1 [0] 61 h2⟩,
    ⟨by rw [hrej], ?_⟩⟩
  exact sliding_window_rate_limiter.2.2 [0, 0, 0, 0, 0, 0, 0, 0, 0, 0] 30 60 10
    (by rw [hrej])

/-- C5: `calculate_profit_share` owes
total_profit * profit_share_percentage / 100, computed on the gross
profit field only — total_loss and profit_share_paid do not affect it —
and on the FIFO example's gross profit with a 25% share the amount owed
is 6.25. -/
theorem profit_share_on_gross_profit :
    (∀ (perf : PerfRecord) (pct : ℚ),
      (calculate_profit_share (some perf) (some pct)).profit_share_owed =
        perf.total_profit * pct / 100) ∧
    (∀ (perf : PerfRecord) (pct paid loss : ℚ),
      (calculate_profit_share
          (some { perf with profit_share_paid := paid, total_loss := loss })
          (some pct)).profit_share_owed =
        (calculate_profit_share (some perf) (some pct)).profit_share_owed) ∧
    (calculate_profit_share (some fifoExamplePerf) (some 25)).profit_share_owed =
      25/4 := by
  refine ⟨fun perf pct => ?_, fun perf pct paid loss => ?_, ?_⟩
  · simp [calculate_profit_share]
    ring
  · simp [calculate_profit_share]
  · simp [calculate_profit_share, fifoExamplePerf, fifo_example_eval]
    norm_num

/-- C10: `record_trigger` increments total_triggers by exactly 1,
increments successful_triggers by 1 exactly when success is true, and
increments rate_limit_count by 1 regardless of success; consequently
successful_triggers ≤ total_triggers is preserved by `record_trigger`,
and also by `check_rate_limit`, from any state in which it holds. -/
theorem record_trigger_counter_updates :
    ∀ (w : Webhook) (now : ℚ) (success : Bool) (ip : Option String),
      (record_trigger w now success ip).total_triggers = w.total_triggers + 1 ∧
      (record_trigger w now success ip).successful_triggers =
        w.successful_triggers + (if success then 1 else 0) ∧
      (record_trigger w now success ip).rate_limit_count =
        w.rate_limit_count + 1 ∧
      (w.successful_triggers ≤ w.total_triggers →
        (record_trigger w now success ip).successful_triggers ≤
          (record_trigger w now success ip).total_triggers) ∧
      (∀ (max_requests : ℕ), w.successful_triggers ≤ w.total_triggers →
        (check_rate_limit w now max_requests).2.2.successful_triggers ≤
          (check_rate_limit w now max_requests).2.2.total_triggers) := by
  intro w now success ip
  refine ⟨rfl, rfl, rfl, fun h => ?_, fun max_requests h => ?_⟩
  · simp only [record_trigger]
    cases success <;> simp <;> omega
  · have pres : (check_rate_limit w now max_requests).2.2.successful_triggers =
        w.successful_triggers ∧
        (check_rate_limit w now max_requests).2.2.total_triggers =
          w.total_triggers := by
      unfold check_rate_limit
      cases w.rate_limit_reset <;> dsimp only <;> split <;> (try split) <;> simp
    rw [pres.1, pres.2]
    exact h

/-- C10, witness: the counter equations and both invariant-preservation
parts at a concrete registration with 6 successful of 7 total triggers. -/
theorem record_trigger_counter_updates_witness :
    (record_trigger ⟨true, false, [], 3, none, 7, 6, none, none⟩ 0 true none).total_triggers =
        (⟨true, false, [], 3, none, 7, 6, none, none⟩ : Webhook).total_triggers + 1 ∧
    ((⟨true, false, [], 3, none, 7, 6, none, none⟩ : Webhook).successful_triggers ≤
        (⟨true, false, [], 3, none, 7, 6, none, none⟩ : Webhook).total_triggers ∧
      (record_trigger ⟨true, false, [], 3, none, 7, 6, none, none⟩ 0 true none).successful_triggers ≤
        (record_trigger ⟨true, false, [], 3, none, 7, 6, none, none⟩ 0 true none).total_triggers) ∧
    (check_rate_limit ⟨true, false, [], 3, none, 7, 6, none, none⟩ 0 10).2.2.successful_triggers ≤
      (check_rate_limit ⟨true, false, [], 3, none, 7, 6, none, none⟩ 0 10).2.2.total_triggers := by
  refine ⟨(record_trigger_counter_updates ⟨true, false, [], 3, none, 7, 6, none, none⟩ 0 true none).1,
    ⟨by decide, (record_trigger_counter_updates ⟨true, false, [], 3, none, 7, 6, none, none⟩
      0 true none).2.2.2.1 (by decide)⟩,
    (record_trigger_counter_updates ⟨true, false, [], 3, none, 7, 6, none, none⟩
      0 true none).2.2.2.2 10 (by decide)⟩

/-! ## Claim theorems: C6, C7 -/

/-- C6: `create_bot` is idempotent per bot key — when a first call
returned an instance and a registry state, a second call with the same
arguments on that state returns the very same instance and the same
state (so the construction counter is unchanged: no second adapter
construction happens). -/
theorem create_bot_idempotent
    (st st' : TradingManagerState) (user_id : ℕ) (pair_symbol exchange : String)
    (credentials : String → Option (String × String)) (bot : BotInstance)
    (h : create_bot st user_id pair_symbol exchange credentials = .ok (bot, st')) :
    create_bot st' user_id pair_symbol exchange credentials = .ok (bot, st') := by
  cases hlk : st.bots.lookup (get_bot_key user_id pair_symbol exchange) with
  | some b =>
    simp only [create_bot, hlk, Except.ok.injEq, Prod.mk.injEq] at h
    obtain ⟨hb, hst⟩ := h
    subst hb hst
    simp only [create_bot, hlk]
  | none =>
    by_cases hsup : exchange = "binance" ∨ exchange = "bybit" ∨ exchange = "mexc" ∨
        exchange = "kraken_spot"
    · cases hc : credentials exchange with
      | none => simp [create_bot, hlk, hsup, hc] at h
      | some c =>
        simp only [create_bot, hlk, hsup, if_true, hc, Except.ok.injEq,
          Prod.mk.injEq] at h
        obtain ⟨hb, hst⟩ := h
        subst hst
        simp only [create_bot, List.lookup, beq_self_eq_true, hb]
    · simp [create_bot, hlk, hsup] at h

/-- C6, witness: on the empty registry a first `create_bot` for user 1 on
BTCUSDT/binance constructs instance 0; the second call returns it with
the state (and construction count) unchanged. -/
theorem create_bot_idempotent_witness :
    create_bot ⟨[], 0, [], 0⟩ 1 "BTCUSDT" "binance" credsAll =
      .ok (⟨0, 1, "BTCUSDT", "binance"⟩,
        ⟨[("1_BTCUSDT_binance", ⟨0, 1, "BTCUSDT", "binance"⟩)], 1, [], 0⟩) ∧
    create_bot ⟨[("1_BTCUSDT_binance", ⟨0, 1, "BTCUSDT", "binance"⟩)], 1, [], 0⟩
        1 "BTCUSDT" "binance" credsAll =
      .ok (⟨0, 1, "BTCUSDT", "binance"⟩,
        ⟨[("1_BTCUSDT_binance", ⟨0, 1, "BTCUSDT", "binance"⟩)], 1, [], 0⟩) :=
  ⟨rfl, create_bot_idempotent ⟨[], 0, [], 0⟩ _ 1 "BTCUSDT" "binance" credsAll
    ⟨0, 1, "BTCUSDT", "binance"⟩ rfl⟩

/-- C7, counterexample: on a registry state holding one `running` session
for the bot key of user 1 on BTCUSDT/binance, `start_bot` for that same
key does not fail at all — it succeeds with a fresh session id, leaving
two `running` sessions for the key. -/
theorem start_bot_succeeds_despite_running_session :
    ((runningState.sessions.filter
        (fun s => decide (s.status = SessionStatus.running))).length = 1) ∧
    start_bot runningState 1 "BTCUSDT" "binance" credsAll =
      .ok (101, ⟨runningState.bots, 1,
        runningState.sessions ++ [⟨101, 1, "BTCUSDT", "binance", .running⟩], 102⟩) ∧
    ((((start_bot runningState 1 "BTCUSDT" "binance" credsAll).toOption.map
        (fun r => (r.2.sessions.filter
          (fun s => decide (s.status = SessionStatus.running))).length))) = some 2) :=
  ⟨rfl, rfl, rfl⟩

/-- C7, amended: `start_bot` performs no check for an existing session —
whenever the bot instance for the key exists it unconditionally appends
a new `running` session with a fresh id, whatever sessions (terminal or
not) already exist for that key. -/
theorem start_bot_always_new_session
    (st : TradingManagerState) (user_id : ℕ) (pair_symbol exchange : String)
    (credentials : String → Option (String × String)) (bot : BotInstance)
    (h : st.bots.lookup (get_bot_key user_id pair_symbol exchange) = some bot) :
    start_bot st user_id pair_symbol exchange credentials =
      .ok (st.next_session,
        { st with
          sessions := st.sessions ++
            [⟨st.next_session, user_id, pair_symbol, exchange, .running⟩]
          next_session := st.next_session + 1 }) := by
  simp only [start_bot, h]

/-- C7, witness for the amended theorem at the state holding a running
session for the key. -/
theorem start_bot_always_new_session_witness :
    runningState.bots.lookup (get_bot_key 1 "BTCUSDT" "binance") =
      some ⟨0, 1, "BTCUSDT", "binance"⟩ ∧
    start_bot runningState 1 "BTCUSDT" "binance" credsAll =
      .ok (101, { runningState with
        sessions := runningState.sessions ++ [⟨101, 1, "BTCUSDT", "binance", .running⟩]
        next_session := 102 }) :=
  ⟨rfl, start_bot_always_new_session runningState 1 "BTCUSDT" "binance" credsAll
    ⟨0, 1, "BTCUSDT", "binance"⟩ rfl⟩

/-! ## Claim theorems: C8, C9 -/

/-- C8, counterexample: an active registration whose plan-level hourly
rate limit is exhausted is a rate-limit-exceeded rejection
(`check_rate_limit` returns false), yet the pipeline reports it with
HTTP 401 and no retry-after hint, not 429. -/
theorem plan_rate_limit_reported_as_401 :
    (check_rate_limit planLimitedWebhook 0 10).1 = false ∧
    (webhook_pipeline [] 10 (some planLimitedWebhook) "1.2.3.4" true 10 0 true true).1 =
      ⟨401, none⟩ := ⟨rfl, rfl⟩

/-- C8, amended: a rejection by the middleware's sliding-window limiter
is reported as 429 with a retry-after hint of 60 seconds; but a request
that passes the middleware and then exhausts the registration's
plan-level hourly limit is reported by the view as 401 without a hint. -/
theorem rate_limit_status_codes :
    (∀ (stored : List ℚ) (now : ℚ) (mw_limit : ℕ) (w? : Option Webhook)
      (ip : String) (sub : Bool) (maxr : ℕ) (pv es : Bool),
      (middleware_check_rate_limit stored now mw_limit 60).1 = false →
      (webhook_pipeline stored mw_limit w? ip sub maxr now pv es).1 =
        ⟨429, some 60⟩) ∧
    (∀ (stored : List ℚ) (now : ℚ) (mw_limit : ℕ) (w : Webhook)
      (ip : String) (sub : Bool) (maxr : ℕ) (pv es : Bool),
      (middleware_check_rate_limit stored now mw_limit 60).1 = true →
      w.is_active = true →
      (check_rate_limit w now maxr).1 = false →
      (webhook_pipeline stored mw_limit (some w) ip sub maxr now pv es).1 =
        ⟨401, none⟩) := by
  constructor
  · intro stored now mw_limit w? ip sub maxr pv es h
    simp [webhook_pipeline, h]
  · intro stored now mw_limit w ip sub maxr pv es h1 h2 h3
    simp [webhook_pipeline, h1, view_post, validate_webhook_request, h2, h3]

/-- C8, witness: a middleware rejection (limit 0) answers 429 with the
hint, and the plan-limited registration's rejection answers 401. -/
theorem rate_limit_status_codes_witness :
    ((middleware_check_rate_limit [] 0 0 60).1 = false ∧
      (webhook_pipeline [] 0 none "1.2.3.4" true 10 0 true true).1 = ⟨429, some 60⟩) ∧
    ((middleware_check_rate_limit [] 0 10 60).1 = true ∧
      planLimitedWebhook.is_active = true ∧
      (check_rate_limit planLimitedWebhook 0 10).1 = false ∧
      (webhook_pipeline [] 10 (some planLimitedWebhook) "1.2.3.4" true 10 0 true true).1 =
        ⟨401, none⟩) :=
  ⟨⟨rfl, rate_limit_status_codes.1 [] 0 0 none "1.2.3.4" true 10 true true rfl⟩,
    ⟨rfl, rfl, rfl, rate_limit_status_codes.2 [] 0 10 planLimitedWebhook "1.2.3.4"
      true 10 true true rfl rfl rfl⟩⟩

/-- C9, counterexample: a payload that passes the serializer (buy, 5)
whose quantity is outside the pair's bounds [1, 2] is rejected — but an
Order row is created and persisted in status `failed`, contradicting the
claim that no Order record is created on that rejection. -/
theorem out_of_bounds_creates_failed_order :
    webhook_payload_valid "buy" "BTCUSDT" 5 none = true ∧
    (process_webhook_trade [] 1 2 "buy" "BTCUSDT" 5 none 50000 5).1 = false ∧
    (process_webhook_trade [] 1 2 "buy" "BTCUSDT" 5 none 50000 5).2 =
      [⟨"buy", "market", 5, 0, .failed, none, none, "webhook"⟩] :=
  ⟨by decide, by decide, by decide⟩

/-- C9, amended: the serializer checks (action buy/sell, positive
quantity, positive price when supplied) reject before any Order row is
created; the `[min_order_size, max_order_size]` bounds check runs inside
dispatch, after the row is created — an out-of-bounds quantity yields a
rejected request together with a persisted Order row in status
`failed`. -/
theorem payload_validation_before_order_creation :
    (∀ (persisted : List Order) (mn mx : ℚ) (action ticker : String)
      (q : ℚ) (p : Option ℚ) (fp fq : ℚ),
      webhook_payload_valid action ticker q p = false →
      process_webhook_trade persisted mn mx action ticker q p fp fq =
        (false, persisted)) ∧
    (∀ (persisted : List Order) (mn mx : ℚ) (action ticker : String)
      (q : ℚ) (p : Option ℚ) (fp fq : ℚ),
      webhook_payload_valid action ticker q p = true →
      (q < mn ∨ mx < q) →
      process_webhook_trade persisted mn mx action ticker q p fp fq =
        (false, persisted ++
          [⟨action, if p = none then "market" else "limit", q, p.getD 0,
            .failed, none, none, "webhook"⟩])) := by
  constructor
  · intro persisted mn mx action ticker q p fp fq h
    simp [process_webhook_trade, h]
  · intro persisted mn mx action ticker q p fp fq h hb
    have hv : ∃ e, validate_order_params mn mx action q p = .error e := by
      simp only [webhook_payload_valid, Bool.and_eq_true, Bool.or_eq_true,
        beq_iff_eq, decide_eq_true_eq] at h
      cases p with
      | none =>
        obtain ⟨⟨⟨hact, htick⟩, hq⟩, -⟩ := h
        unfold validate_order_params
        rw [if_neg (not_not_intro hact), if_neg (not_le.mpr hq)]
        rw [if_neg (by simp)]
        by_cases hmn : q < mn
        · rw [if_pos hmn]
          exact ⟨_, rfl⟩
        · rw [if_neg hmn, if_pos (hb.resolve_left hmn)]
          exact ⟨_, rfl⟩
      | some pr =>
        obtain ⟨⟨⟨hact, htick⟩, hq⟩, hp⟩ := h
        unfold validate_order_params
        rw [if_neg (not_not_intro hact), if_neg (not_le.mpr hq)]
        have hpr : 0 < pr := by simpa using hp
        rw [if_neg (by simp [not_le]; exact hpr)]
        by_cases hmn : q < mn
        · rw [if_pos hmn]
          exact ⟨_, rfl⟩
        · rw [if_neg hmn, if_pos (hb.resolve_left hmn)]
          exact ⟨_, rfl⟩
    obtain ⟨e, hv⟩ := hv
    simp [process_webhook_trade, h, execute_webhook_order, hv]

/-- C9, witness: an invalid action is rejected leaving the order rows
unchanged; the serializer-valid but out-of-bounds buy is rejected with a
failed Order row appended. -/
theorem payload_validation_witness :
    (webhook_payload_valid "hold" "BTCUSDT" 1 none = false ∧
      process_webhook_trade [] 1 2 "hold" "BTCUSDT" 1 none 50000 1 = (false, [])) ∧
    (webhook_payload_valid "buy" "BTCUSDT" 5 none = true ∧
      ((5:ℚ) < 1 ∨ (2:ℚ) < 5) ∧
      process_webhook_trade [] 1 2 "buy" "BTCUSDT" 5 none 50000 5 =
        (false, [] ++ [⟨"buy", if (none : Option ℚ) = none then "market" else "limit",
          5, (none : Option ℚ).getD 0, .failed, none, none, "webhook"⟩])) :=
  ⟨⟨by decide, payload_validation_before_order_creation.1 [] 1 2 "hold" "BTCUSDT"
      1 none 50000 1 (by decide)⟩,
    ⟨by decide, Or.inr (by decide),
      payload_validation_before_order_creation.2 [] 1 2 "buy" "BTCUSDT" 5 none
        50000 5 (by decide) (Or.inr (by decide))⟩⟩

end Torgovo
